import Mathlib

/-
Verification of the typed-effect user-service example
(works/with-effect/user-service.ts).

The TypeScript `Effect.Effect<A, E, R>` values of the example are embedded
shallowly: an effect is a function from an environment of service
implementations to an event trace (the service calls it performed, in
order) together with an `Except` outcome.  All domain errors live in the
closed union `UserError`, mirroring the source's
`UserNotFoundError | DatabaseError | ValidationError | CacheError`; the
per-service error types (`DatabaseError` for `Database`, `CacheError` for
`Cache`) are kept separate on the service interfaces and injected into the
union at each call site, exactly as the TypeScript types prescribe.
Backoff delays of retry schedules are not observable in this embedding;
a schedule is represented by the number of recurrences it permits.
-/

-- ============================================================================
-- Domain Types
-- ============================================================================

/-- Mirrors the source's `User` interface; `createdAt : Date` is represented
as a millisecond timestamp. -/
structure User where
  id : String
  email : String
  name : String
  createdAt : Int
deriving DecidableEq, Repr

structure CreateUserInput where
  email : String
  name : String
deriving DecidableEq, Repr

/-- Optional fields of the source's `UpdateUserInput` become `Option`. -/
structure UpdateUserInput where
  email : Option String
  name : Option String
deriving DecidableEq, Repr

-- ============================================================================
-- Error Types
-- ============================================================================

structure UserNotFoundError where
  userId : String
deriving DecidableEq, Repr

/-- The source's optional `cause : unknown` payload is not representable and
is omitted; no claim inspects it. -/
structure DatabaseError where
  message : String
deriving DecidableEq, Repr

structure ValidationError where
  message : String
  field : Option String
deriving DecidableEq, Repr

structure CacheError where
  message : String
deriving DecidableEq, Repr

/-- The closed union `UserError` of the source. -/
inductive UserError where
  | userNotFound : UserNotFoundError → UserError
  | database : DatabaseError → UserError
  | validation : ValidationError → UserError
  | cache : CacheError → UserError
deriving DecidableEq, Repr

/-- The `_tag` discriminant of each error class. -/
def UserError.tag : UserError → String
  | .userNotFound _ => "UserNotFoundError"
  | .database _ => "DatabaseError"
  | .validation _ => "ValidationError"
  | .cache _ => "CacheError"

-- ============================================================================
-- Service Definitions
-- ============================================================================

/-- The three `Context.Tag` capabilities of the source. -/
inductive Capability where
  | database
  | cache
  | logger
deriving DecidableEq, Repr

/-- Implementation of the `Database` capability.  Each operation is a pure
function of its arguments (an `Effect.Effect<_, DatabaseError>` in the
source, with no further requirements); `unknown[]` parameters are
represented as `List String`. -/
structure DatabaseImpl where
  query : String → List String → Except DatabaseError (List User)
  execute : String → List String → Except DatabaseError Unit

/-- Implementation of the `Cache` capability; the third argument of `set`
is the `ttlSeconds` parameter. -/
structure CacheImpl where
  get : String → Except CacheError (Option User)
  set : String → User → Nat → Except CacheError Unit
  delete : String → Except CacheError Unit

/-- Logger operations return `void` and cannot fail; their invocations are
recorded in the event trace, so the implementation carries no data. -/
structure LoggerImpl where

/-- The execution environment: one implementation per capability, plus the
ambient `Date.now()` clock and the `crypto.randomUUID()` source used by
`createUser`. -/
structure Env where
  database : DatabaseImpl
  cache : CacheImpl
  logger : LoggerImpl
  now : Int
  randomUUID : String

/-- Observable events: every service call an effect performs, in order. -/
inductive Ev where
  | logDebug (message : String)
  | logInfo (message : String)
  | logError (message : String)
  | cacheGet (key : String)
  | cacheSet (key : String)
  | cacheDelete (key : String)
  | dbQuery (sql : String) (params : List String)
  | dbExecute (sql : String) (params : List String)
deriving DecidableEq, Repr

-- ============================================================================
-- Effect Values and Combinators
-- ============================================================================

/-- Shallow embedding of `Effect.Effect<A, UserError, Database | Cache | Logger>`:
running under an environment yields the trace of performed service calls
and the outcome. -/
def Effect (A : Type) : Type :=
  Env → List Ev × Except UserError A

def Effect.succeed {A : Type} (value : A) : Effect A :=
  fun _ => ([], .ok value)

def Effect.fail {A : Type} (error : UserError) : Effect A :=
  fun _ => ([], .error error)

/-- Sequencing: run `a`; on success feed its value to `f`; on failure
short-circuit without invoking `f`. -/
def Effect.flatMap {A B : Type} (a : Effect A) (f : A → Effect B) : Effect B :=
  fun env =>
    match a env with
    | (evs, .ok v) =>
      let r := f v env
      (evs ++ r.1, r.2)
    | (evs, .error e) => (evs, .error e)

def Effect.map {A B : Type} (a : Effect A) (f : A → B) : Effect B :=
  Effect.flatMap a (fun v => Effect.succeed (f v))

/-- `Effect.catchTag`: intercept exactly the error variant whose `_tag`
equals `tag`, routing it to the handler; all other outcomes pass through. -/
def Effect.catchTag {A : Type} (a : Effect A) (tag : String)
    (handler : UserError → Effect A) : Effect A :=
  fun env =>
    match a env with
    | (evs, .ok v) => (evs, .ok v)
    | (evs, .error e) =>
      if UserError.tag e = tag then
        let r := handler e env
        (evs ++ r.1, r.2)
      else (evs, .error e)

/-- Read the environment (used where the source calls `Date.now()` or
`crypto.randomUUID()` directly inside a generator). -/
def Effect.withEnv {A : Type} (f : Env → Effect A) : Effect A :=
  fun env => f env env

-- ============================================================================
-- Service Call Effects
-- ============================================================================

def Database.query (sql : String) (params : List String) : Effect (List User) :=
  fun env =>
    match env.database.query sql params with
    | .ok results => ([.dbQuery sql params], .ok results)
    | .error e => ([.dbQuery sql params], .error (.database e))

def Database.execute (sql : String) (params : List String) : Effect Unit :=
  fun env =>
    match env.database.execute sql params with
    | .ok _ => ([.dbExecute sql params], .ok ())
    | .error e => ([.dbExecute sql params], .error (.database e))

def Cache.get (key : String) : Effect (Option User) :=
  fun env =>
    match env.cache.get key with
    | .ok v => ([.cacheGet key], .ok v)
    | .error e => ([.cacheGet key], .error (.cache e))

def Cache.set (key : String) (value : User) (ttlSeconds : Nat) : Effect Unit :=
  fun env =>
    match env.cache.set key value ttlSeconds with
    | .ok _ => ([.cacheSet key], .ok ())
    | .error e => ([.cacheSet key], .error (.cache e))

def Cache.delete (key : String) : Effect Unit :=
  fun env =>
    match env.cache.delete key with
    | .ok _ => ([.cacheDelete key], .ok ())
    | .error e => ([.cacheDelete key], .error (.cache e))

/-- Logger calls never fail; the message metadata objects of the source are
not observable and are dropped. -/
def Logger.debug (message : String) : Effect Unit :=
  fun _ => ([.logDebug message], .ok ())

def Logger.info (message : String) : Effect Unit :=
  fun _ => ([.logInfo message], .ok ())

def Logger.error (message : String) : Effect Unit :=
  fun _ => ([.logError message], .ok ())

-- ============================================================================
-- User Repository - Data Access Layer
-- ============================================================================

/-- `findUserById`: try the cache first, recovering from `CacheError` by
treating it as a cache miss; on a miss query the database, fail with
`UserNotFoundError` on an empty result set, and cache the result while
ignoring cache errors. -/
def findUserById (id : String) : Effect User :=
  Effect.flatMap (Logger.debug "Finding user by ID") fun _ =>
  Effect.flatMap
    (Effect.catchTag (Cache.get ("user:" ++ id)) "CacheError" fun _error =>
      Effect.flatMap (Logger.error "Cache error while fetching user") fun _ =>
        Effect.succeed none)
    fun cached =>
  match cached with
  | some user =>
    Effect.flatMap (Logger.debug "User found in cache") fun _ =>
      Effect.succeed user
  | none =>
    Effect.flatMap (Database.query "SELECT * FROM users WHERE id = ?" [id]) fun results =>
    match results with
    | [] => Effect.fail (.userNotFound ⟨id⟩)
    | user :: _ =>
      Effect.flatMap
        (Effect.catchTag (Cache.set ("user:" ++ id) user 300) "CacheError" fun _error =>
          Logger.error "Failed to cache user")
        fun _ =>
      Effect.succeed user

def findUserByEmail (email : String) : Effect (Option User) :=
  Effect.flatMap (Logger.debug "Finding user by email") fun _ =>
  Effect.flatMap (Database.query "SELECT * FROM users WHERE email = ?" [email]) fun results =>
  Effect.succeed results.head?

def createUser (input : CreateUserInput) : Effect User :=
  Effect.flatMap (Logger.info "Creating new user") fun _ =>
  Effect.flatMap (findUserByEmail input.email) fun existing =>
  match existing with
  | some _ => Effect.fail (.validation ⟨"Email already in use", some "email"⟩)
  | none =>
    Effect.withEnv fun env =>
    let user : User :=
      { id := env.randomUUID
        email := input.email
        name := input.name
        createdAt := env.now }
    Effect.flatMap
      (Database.execute "INSERT INTO users (id, email, name, created_at) VALUES (?, ?, ?, ?)"
        [user.id, user.email, user.name, toString user.createdAt])
      fun _ =>
    Effect.succeed user

/-- `updateUser`: the `if (input.email && input.email !== user.email)` guard
of the source uses JavaScript truthiness, so a provided empty string skips
the uniqueness check; `input.email ?? user.email` is `Option.getD`. -/
def updateUser (id : String) (input : UpdateUserInput) : Effect User :=
  Effect.flatMap (Logger.info "Updating user") fun _ =>
  Effect.flatMap (findUserById id) fun user =>
  Effect.flatMap
    (match input.email with
     | some e =>
       if e ≠ "" ∧ e ≠ user.email then
         Effect.flatMap (findUserByEmail e) fun existing =>
         match existing with
         | some _ => Effect.fail (.validation ⟨"Email already in use", some "email"⟩)
         | none => Effect.succeed ()
       else Effect.succeed ()
     | none => Effect.succeed ())
    fun _ =>
  let updated : User :=
    { user with
      email := input.email.getD user.email
      name := input.name.getD user.name }
  Effect.flatMap
    (Database.execute "UPDATE users SET email = ?, name = ? WHERE id = ?"
      [updated.email, updated.name, id])
    fun _ =>
  Effect.flatMap
    (Effect.catchTag (Cache.delete ("user:" ++ id)) "CacheError" fun _error =>
      Logger.error "Failed to invalidate user cache")
    fun _ =>
  Effect.succeed updated

-- ============================================================================
-- User Service - Business Logic Layer
-- ============================================================================

structure UserProfile where
  user : User
  accountAge : Int
  isNewUser : Bool
deriving DecidableEq, Repr

/-- `getUserProfile` computes the account age in whole days from
`Date.now()`; `Math.floor` on the division is `Int.fdiv`. -/
def getUserProfile (userId : String) : Effect UserProfile :=
  Effect.flatMap (findUserById userId) fun user =>
  Effect.withEnv fun env =>
  let accountAgeMs : Int := env.now - user.createdAt
  let accountAgeDays : Int := accountAgeMs.fdiv (1000 * 60 * 60 * 24)
  Effect.succeed
    { user := user
      accountAge := accountAgeDays
      isNewUser := decide (accountAgeDays < 30) }

/-- The email regex `^[^\s@]+@[^\s@]+\.[^\s@]+$` of the source: a character
is admissible when it is neither whitespace nor `@`; the string must be
one admissible run, an `@`, and a second part that is admissible apart
from dots and contains a dot with nonempty material on both sides. -/
def isEmailAtomChar (c : Char) : Bool :=
  !c.isWhitespace && c != '@'

def emailRegexTest (s : String) : Bool :=
  let cs := s.toList
  let lpart := cs.takeWhile (fun c => c != '@')
  match cs.dropWhile (fun c => c != '@') with
  | '@' :: rest =>
    !lpart.isEmpty && lpart.all isEmailAtomChar &&
    !rest.isEmpty && rest.all isEmailAtomChar &&
    ((rest.drop 1).dropLast.contains '.')
  | _ => false

def validateEmail (email : String) : Effect String :=
  if emailRegexTest email then Effect.succeed email
  else Effect.fail (.validation ⟨"Invalid email format", some "email"⟩)

def validateName (name : String) : Effect String :=
  if name.length ≥ 2 then Effect.succeed name
  else Effect.fail (.validation ⟨"Name must be at least 2 characters", some "name"⟩)

def registerUser (input : CreateUserInput) : Effect User :=
  Effect.flatMap (validateEmail input.email) fun _ =>
  Effect.flatMap (validateName input.name) fun _ =>
  createUser input

-- ============================================================================
-- HTTP Layer - Type-Safe Error Mapping
-- ============================================================================

/-- Response bodies of `mapErrorToResponse`: either a bare error message or
a message together with the offending field. -/
inductive ResponseBody where
  | errorMessage (message : String)
  | errorWithField (message : String) (field : Option String)
deriving DecidableEq, Repr

structure HttpResponse where
  status : Nat
  body : ResponseBody
deriving DecidableEq, Repr

/-- The exhaustive switch on `error._tag` of the source. -/
def mapErrorToResponse (error : UserError) : HttpResponse :=
  match error with
  | .userNotFound _ => { status := 404, body := .errorMessage "User not found" }
  | .validation e => { status := 400, body := .errorWithField e.message e.field }
  | .database _ => { status := 503, body := .errorMessage "Service unavailable" }
  | .cache _ => { status := 503, body := .errorMessage "Service degraded" }

-- ============================================================================
-- Batch Processing
-- ============================================================================

structure BatchSuccess where
  userId : String
  profile : UserProfile
deriving DecidableEq, Repr

structure BatchFailure where
  userId : String
  error : String
deriving DecidableEq, Repr

structure BatchResult where
  successful : List BatchSuccess
  failed : List BatchFailure
deriving DecidableEq, Repr

/-- `Effect.partition` runs every item's effect and collects the pair
(failures, successes); it never fails itself. -/
def Effect.partitionGo {I A : Type} (f : I → Effect A) (env : Env) :
    List I → List Ev × (List UserError × List A)
  | [] => ([], ([], []))
  | i :: rest =>
    let r := f i env
    let tail := Effect.partitionGo f env rest
    match r.2 with
    | .ok a => (r.1 ++ tail.1, (tail.2.1, a :: tail.2.2))
    | .error e => (r.1 ++ tail.1, (e :: tail.2.1, tail.2.2))

def Effect.partition {I A : Type} (items : List I) (f : I → Effect A) :
    Effect (List UserError × List A) :=
  fun env =>
    let r := Effect.partitionGo f env items
    (r.1, .ok r.2)

/-- `processUserBatch` as written in the source: the failed entries discard
the originating user id and substitute the placeholder string. -/
def processUserBatch (userIds : List String) : Effect BatchResult :=
  Effect.map
    (Effect.partition userIds fun userId =>
      Effect.map (getUserProfile userId) fun profile =>
        BatchSuccess.mk userId profile)
    fun p =>
      { successful := p.2
        failed := p.1.map fun error => { userId := "unknown", error := error.tag } }

-- ============================================================================
-- Retry Scheduling
-- ============================================================================

/-- A schedule is represented by the number of recurrences (retries) it
permits; backoff delays are not observable in this embedding. -/
def Schedule : Type := Nat

def Schedule.recurs (n : Nat) : Schedule := n

def Effect.retryGo {A : Type} (eff : Effect A) (env : Env) :
    Nat → List Ev × Except UserError A
  | 0 => eff env
  | n + 1 =>
    match eff env with
    | (evs, .ok v) => (evs, .ok v)
    | (evs, .error _) =>
      let r := Effect.retryGo eff env n
      (evs ++ r.1, r.2)

/-- `Effect.retry`: run the effect; on failure, re-execute it while the
schedule permits further recurrences; the final failure is surfaced
unchanged. -/
def Effect.retry {A : Type} (eff : Effect A) (schedule : Schedule) : Effect A :=
  fun env => Effect.retryGo eff env schedule

/-- The schedule of `processWithRetry`:
`Schedule.exponential(100ms)` composed with `Schedule.recurs(3)`.  The
exponential component only contributes delays, which are unobservable
here; composing with `recurs(3)` caps the recurrences at 3. -/
def processWithRetrySchedule : Schedule := Schedule.recurs 3

def processWithRetry (userId : String) : Effect UserProfile :=
  Effect.retry (getUserProfile userId) processWithRetrySchedule

-- ============================================================================
-- Layer Definitions and Runner
-- ============================================================================

/-- A layer provides implementations for a subset of the capabilities. -/
structure Layer where
  database : Option DatabaseImpl
  cache : Option CacheImpl
  logger : Option LoggerImpl

def databaseLiveImpl : DatabaseImpl :=
  { query := fun _ _ => .ok []
    execute := fun _ _ => .ok () }

def cacheLiveImpl : CacheImpl :=
  { get := fun _ => .ok none
    set := fun _ _ _ => .ok ()
    delete := fun _ => .ok () }

def DatabaseLive : Layer := { database := some databaseLiveImpl, cache := none, logger := none }

def CacheLive : Layer := { database := none, cache := some cacheLiveImpl, logger := none }

def LoggerLive : Layer := { database := none, cache := none, logger := some {} }

def Layer.merge (a b : Layer) : Layer :=
  { database := a.database.orElse fun _ => b.database
    cache := a.cache.orElse fun _ => b.cache
    logger := a.logger.orElse fun _ => b.logger }

def Layer.mergeAll (a b c : Layer) : Layer :=
  (a.merge b).merge c

def AppLayerLive : Layer := Layer.mergeAll DatabaseLive CacheLive LoggerLive

def Layer.provides (l : Layer) (c : Capability) : Bool :=
  match c with
  | .database => l.database.isSome
  | .cache => l.cache.isSome
  | .logger => l.logger.isSome

/-- Placeholder implementations for capabilities a layer does not provide;
a well-typed effect never invokes them, since its declared requirement-set
covers every service it calls. -/
def Layer.toEnv (l : Layer) : Env :=
  { database := l.database.getD { query := fun _ _ => .ok [], execute := fun _ _ => .ok () }
    cache := l.cache.getD { get := fun _ => .ok none, set := fun _ _ _ => .ok (), delete := fun _ => .ok () }
    logger := l.logger.getD {}
    now := 0
    randomUUID := "" }

/-- Modelled from the spec: `run(effect, registry)` rejects execution
whenever the effect's requirement-set is not a subset of the registry's
provided capabilities, before any service call occurs.  In the TypeScript
source this rejection happens at compile time through the `R` type
parameter of `Effect.provide` inside `runWithLive`; no runtime function in
`src` performs the check, so it is taken from the spec's words.  `none` is
rejection with no trace and no outcome; `some` carries the executed
result. -/
def Layer.run {A : Type} (requirements : List Capability) (eff : Effect A)
    (l : Layer) : Option (List Ev × Except UserError A) :=
  if requirements.all l.provides then some (eff l.toEnv) else none

/-- The requirement-set `Database | Cache | Logger` that `runWithLive`
demands of its argument program. -/
def userServiceRequirements : List Capability := [.database, .cache, .logger]

def runWithLive {A : Type} (program : Effect A) : Option (List Ev × Except UserError A) :=
  Layer.run userServiceRequirements program AppLayerLive

-- ============================================================================
-- Theorems
-- ============================================================================

/-- Entries of the total boundary mapping, keyed by the `_tag` discriminants
of the closed `UserError` union. -/
def errorStatusTable : List (String × Nat) :=
  [("UserNotFoundError", 404), ("ValidationError", 400), ("DatabaseError", 503), ("CacheError", 503)]

/-- Claim C8: running `succeed(5)` under any registry yields `5` (the empty
requirement-set is a subset of every registry's capabilities), and `map`
with the identity function on `succeed(x)` is `succeed(x)` for every `x`. -/
theorem run_succeed_and_functor_identity :
    (∀ l : Layer, Layer.run [] (Effect.succeed (5 : Nat)) l = some ([], Except.ok 5))
    ∧ (∀ (A : Type) (x : A), Effect.map (Effect.succeed x) id = Effect.succeed x) := by
  constructor
  · intro l
    rfl
  · intro A x
    funext env
    rfl

/-- Claim C7: `mapErrorToResponse` is total over the closed four-variant
`UserError` union: every variant's tag has an entry in the status table
and the returned response carries exactly that status, so no variant falls
through to an unmapped fallback. -/
theorem mapErrorToResponse_total :
    ∀ e : UserError,
      List.lookup (UserError.tag e) errorStatusTable = some (mapErrorToResponse e).status := by
  intro e
  cases e <;> rfl

/-- Claim C5: `catchTag` installed for the `CacheError` tag intercepts
exactly that variant — on a `CacheError` failure the handler is invoked
with that error as argument and determines the outcome — while a failure
with any other tag (for example `DatabaseError` or `UserNotFoundError`)
propagates unchanged and the handler is never invoked: the outcome is the
same for every handler. -/
theorem catchTag_intercepts_exactly_named_variant :
    ∀ (A : Type) (eff : Effect A) (handler : UserError → Effect A) (env : Env)
      (evs : List Ev) (e : UserError),
      eff env = (evs, Except.error e) →
        (UserError.tag e = "CacheError" →
          Effect.catchTag eff "CacheError" handler env =
            (evs ++ (handler e env).1, (handler e env).2))
        ∧ (UserError.tag e ≠ "CacheError" →
            ∀ handler' : UserError → Effect A,
              Effect.catchTag eff "CacheError" handler env = (evs, Except.error e)
              ∧ Effect.catchTag eff "CacheError" handler env =
                  Effect.catchTag eff "CacheError" handler' env) := by
  intro A eff handler env evs e heff
  constructor
  · intro htag
    simp [Effect.catchTag, heff, htag]
  · intro htag handler'
    constructor
    · simp [Effect.catchTag, heff, htag]
    · simp [Effect.catchTag, heff, htag]

/-- Witness for C5 at concrete inputs: a `CacheError` failure is routed to
the handler, a `DatabaseError` failure is not. -/
theorem catchTag_intercepts_witness :
    Effect.catchTag (Effect.fail (UserError.cache ⟨"boom"⟩) : Effect Nat) "CacheError"
        (fun _ => Effect.succeed 7) AppLayerLive.toEnv = ([], Except.ok 7)
    ∧ Effect.catchTag (Effect.fail (UserError.database ⟨"down"⟩) : Effect Nat) "CacheError"
        (fun _ => Effect.succeed 7) AppLayerLive.toEnv =
        ([], Except.error (UserError.database ⟨"down"⟩)) := by
  constructor
  · have h := (catchTag_intercepts_exactly_named_variant Nat
      (Effect.fail (UserError.cache ⟨"boom"⟩)) (fun _ => Effect.succeed 7)
      AppLayerLive.toEnv [] (UserError.cache ⟨"boom"⟩) rfl).1 rfl
    simpa using h
  · have h := ((catchTag_intercepts_exactly_named_variant Nat
      (Effect.fail (UserError.database ⟨"down"⟩)) (fun _ => Effect.succeed 7)
      AppLayerLive.toEnv [] (UserError.database ⟨"down"⟩) rfl).2 (by decide))
      (fun _ => Effect.succeed 7)
    exact h.1

/-- Claim C3: `flatMap` runs the first effect to completion and, on its
success, feeds the value to the continuation; on failure it
short-circuits without invoking the continuation (the outcome is the same
for every continuation); any error of the composition was produced either
by the first stage or by the continuation (the composed error-type is the
union of both stages); concretely, when `validateEmail` rejects the input
email, `registerUser` performs no service call and surfaces the
`ValidationError`, so neither `validateName` nor `createUser` runs. -/
theorem flatMap_sequencing_short_circuit :
    (∀ (A B : Type) (a : Effect A) (f : A → Effect B) (env : Env) (evs : List Ev) (v : A),
      a env = (evs, Except.ok v) →
        Effect.flatMap a f env = (evs ++ (f v env).1, (f v env).2))
    ∧ (∀ (A B : Type) (a : Effect A) (f g : A → Effect B) (env : Env) (evs : List Ev) (e : UserError),
      a env = (evs, Except.error e) →
        Effect.flatMap a f env = (evs, Except.error e)
        ∧ Effect.flatMap a f env = Effect.flatMap a g env)
    ∧ (∀ (A B : Type) (a : Effect A) (f : A → Effect B) (env : Env) (e : UserError),
      (Effect.flatMap a f env).2 = Except.error e →
        (a env).2 = Except.error e ∨ ∃ v, (a env).2 = Except.ok v ∧ (f v env).2 = Except.error e)
    ∧ (∀ (input : CreateUserInput) (env : Env),
      emailRegexTest input.email = false →
        registerUser input env =
          ([], Except.error (UserError.validation ⟨"Invalid email format", some "email"⟩))) := by
  refine ⟨?_, ?_, ?_, ?_⟩
  · intro A B a f env evs v h
    simp [Effect.flatMap, h]
  · intro A B a f g env evs e h
    constructor
    · simp [Effect.flatMap, h]
    · simp [Effect.flatMap, h]
  · intro A B a f env e h
    rcases ha : a env with ⟨evs, r⟩
    cases r with
    | error e' =>
      simp [Effect.flatMap, ha] at h
      subst h
      left
      rfl
    | ok v =>
      simp [Effect.flatMap, ha] at h
      right
      exact ⟨v, rfl, h⟩
  · intro input env h
    simp [registerUser, validateEmail, h, Effect.flatMap, Effect.fail]

/-- Witness for C3 at concrete inputs: a successful first stage feeds its
value onward, and `registerUser` on a malformed email fails with the
`ValidationError` having performed no service call. -/
theorem flatMap_sequencing_witness :
    Effect.flatMap (Effect.succeed (1 : Nat)) (fun n => Effect.succeed (n + 1))
      AppLayerLive.toEnv = ([], Except.ok 2)
    ∧ registerUser ⟨"bademail", "Jo"⟩ AppLayerLive.toEnv =
        ([], Except.error (UserError.validation ⟨"Invalid email format", some "email"⟩)) := by
  constructor
  · have h := flatMap_sequencing_short_circuit.1 Nat Nat (Effect.succeed 1)
      (fun n => Effect.succeed (n + 1)) AppLayerLive.toEnv [] 1 rfl
    simpa using h
  · exact flatMap_sequencing_short_circuit.2.2.2 ⟨"bademail", "Jo"⟩ AppLayerLive.toEnv (by decide)

/-- Claim C4: retrying an always-failing effect with a schedule capped at 3
recurrences executes the effect exactly 4 times — the trace is four copies
of the single-execution trace — and surfaces the final failure unchanged;
in particular `processWithRetry` executes `getUserProfile` exactly 4 times
when it always fails. -/
theorem retry_recurs3_executes_four_times :
    (∀ (A : Type) (eff : Effect A) (env : Env) (evs : List Ev) (e : UserError),
      eff env = (evs, Except.error e) →
        Effect.retry eff (Schedule.recurs 3) env = (evs ++ (evs ++ (evs ++ evs)), Except.error e))
    ∧ (∀ (userId : String) (env : Env) (evs : List Ev) (e : UserError),
      getUserProfile userId env = (evs, Except.error e) →
        processWithRetry userId env = (evs ++ (evs ++ (evs ++ evs)), Except.error e)) := by
  have hgen : ∀ (A : Type) (eff : Effect A) (env : Env) (evs : List Ev) (e : UserError),
      eff env = (evs, Except.error e) →
        Effect.retry eff (Schedule.recurs 3) env = (evs ++ (evs ++ (evs ++ evs)), Except.error e) := by
    intro A eff env evs e h
    have h0 : Effect.retryGo eff env 0 = (evs, Except.error e) := h
    have hs : ∀ n, Effect.retryGo eff env (n + 1) =
        (evs ++ (Effect.retryGo eff env n).1, (Effect.retryGo eff env n).2) := by
      intro n
      simp [Effect.retryGo, h]
    show Effect.retryGo eff env 3 = _
    rw [show (3 : Nat) = 2 + 1 from rfl, hs, show (2 : Nat) = 1 + 1 from rfl, hs,
      show (1 : Nat) = 0 + 1 from rfl, hs, h0]
  exact ⟨hgen, fun userId env evs e h => hgen UserProfile (getUserProfile userId) env evs e h⟩

/-- Environment whose database is down: every query fails, so
`getUserProfile` always fails. -/
def dbDownEnv : Env :=
  { database :=
      { query := fun _ _ => .error ⟨"down"⟩
        execute := fun _ _ => .ok () }
    cache := cacheLiveImpl
    logger := {}
    now := 0
    randomUUID := "" }

/-- Witness for C4: under `dbDownEnv`, `processWithRetry` executes
`getUserProfile` four times (the trace repeats four times) and surfaces
the database failure unchanged. -/
theorem retry_recurs3_witness :
    processWithRetry "u1" dbDownEnv =
      ([Ev.logDebug "Finding user by ID", Ev.cacheGet "user:u1",
        Ev.dbQuery "SELECT * FROM users WHERE id = ?" ["u1"],
        Ev.logDebug "Finding user by ID", Ev.cacheGet "user:u1",
        Ev.dbQuery "SELECT * FROM users WHERE id = ?" ["u1"],
        Ev.logDebug "Finding user by ID", Ev.cacheGet "user:u1",
        Ev.dbQuery "SELECT * FROM users WHERE id = ?" ["u1"],
        Ev.logDebug "Finding user by ID", Ev.cacheGet "user:u1",
        Ev.dbQuery "SELECT * FROM users WHERE id = ?" ["u1"]],
       Except.error (UserError.database ⟨"down"⟩)) := by
  have h := retry_recurs3_executes_four_times.2 "u1" dbDownEnv
    [Ev.logDebug "Finding user by ID", Ev.cacheGet "user:u1",
     Ev.dbQuery "SELECT * FROM users WHERE id = ?" ["u1"]]
    (UserError.database ⟨"down"⟩) rfl
  simpa using h

/-- Claim C2: `run` rejects execution — yielding neither a trace nor an
outcome, so no storage call occurs — whenever the effect's
requirement-set is not a subset of the registry's provided capabilities,
and `runWithLive`, whose `AppLayerLive` registry provides `Database`,
`Cache` and `Logger`, accepts every program over those requirements and
executes it. -/
theorem run_rejects_missing_requirements :
    (∀ (A : Type) (eff : Effect A) (requirements : List Capability) (l : Layer),
      ¬ (∀ c ∈ requirements, l.provides c = true) →
        Layer.run requirements eff l = none)
    ∧ (∀ (A : Type) (eff : Effect A),
        runWithLive eff = some (eff AppLayerLive.toEnv)) := by
  constructor
  · intro A eff requirements l h
    rw [Layer.run, if_neg]
    intro hall
    exact h (by simpa [List.all_eq_true] using hall)
  · intro A eff
    rfl

/-- Witness for C2: an effect requiring all of `Database`, `Cache` and
`Logger` is rejected by the registry `DatabaseLive`, which provides only
`Database`; `runWithLive` accepts and executes `Effect.succeed 5`. -/
theorem run_rejects_missing_requirements_witness :
    Layer.run userServiceRequirements (findUserById "u1") DatabaseLive = none
    ∧ runWithLive (Effect.succeed (5 : Nat)) = some ([], Except.ok 5) := by
  constructor
  · refine run_rejects_missing_requirements.1 User (findUserById "u1")
      userServiceRequirements DatabaseLive ?_
    intro hall
    have hc : Capability.cache ∈ userServiceRequirements := by
      simp [userServiceRequirements]
    have := hall Capability.cache hc
    simp [DatabaseLive, Layer.provides] at this
  · exact run_rejects_missing_requirements.2 Nat (Effect.succeed 5)

/-- Claim C6: when the cache lookup fails with a `CacheError`,
`findUserById` degrades to cache-miss behaviour — the database is still
queried (the query event is in the trace) and the user is returned on a
nonempty result — while a `DatabaseError` from the query and
`UserNotFoundError` on an empty result set are surfaced to the caller. -/
theorem findUserById_cache_failure_degrades :
    ∀ (env : Env) (id : String) (ce : CacheError),
      env.cache.get ("user:" ++ id) = Except.error ce →
        ((∀ (u : User) (rest : List User),
          env.database.query "SELECT * FROM users WHERE id = ?" [id] = Except.ok (u :: rest) →
            (findUserById id env).2 = Except.ok u
            ∧ Ev.dbQuery "SELECT * FROM users WHERE id = ?" [id] ∈ (findUserById id env).1)
        ∧ (∀ de : DatabaseError,
            env.database.query "SELECT * FROM users WHERE id = ?" [id] = Except.error de →
              (findUserById id env).2 = Except.error (UserError.database de))
        ∧ (env.database.query "SELECT * FROM users WHERE id = ?" [id] = Except.ok [] →
            (findUserById id env).2 = Except.error (UserError.userNotFound ⟨id⟩))) := by
  intro env id ce hcache
  refine ⟨?_, ?_, ?_⟩
  · intro u rest hq
    cases hset : env.cache.set ("user:" ++ id) u 300 with
    | ok _ =>
      constructor <;>
        simp [findUserById, Effect.flatMap, Effect.catchTag, Effect.succeed,
          Cache.get, Cache.set, Database.query, Logger.debug, Logger.error,
          UserError.tag, hcache, hq, hset]
    | error e2 =>
      constructor <;>
        simp [findUserById, Effect.flatMap, Effect.catchTag, Effect.succeed,
          Cache.get, Cache.set, Database.query, Logger.debug, Logger.error,
          UserError.tag, hcache, hq, hset]
  · intro de hq
    simp [findUserById, Effect.flatMap, Effect.catchTag, Effect.succeed,
      Cache.get, Database.query, Logger.debug, Logger.error, UserError.tag,
      hcache, hq]
  · intro hq
    simp [findUserById, Effect.flatMap, Effect.catchTag, Effect.succeed,
      Effect.fail, Cache.get, Database.query, Logger.debug, Logger.error,
      UserError.tag, hcache, hq]

/-- Environment whose cache is failing: every cache read errors, while the
database holds the user. -/
def cacheFailEnv : Env :=
  { database :=
      { query := fun _ _ => .ok [User.mk "u1" "a@b.c" "Name" 0]
        execute := fun _ _ => .ok () }
    cache :=
      { get := fun _ => .error ⟨"cache down"⟩
        set := fun _ _ _ => .error ⟨"cache down"⟩
        delete := fun _ => .error ⟨"cache down"⟩ }
    logger := {}
    now := 0
    randomUUID := "" }

/-- Witness for C6: under `cacheFailEnv` the lookup still queries the
database and returns the stored user despite the cache failure. -/
theorem findUserById_cache_failure_witness :
    (findUserById "u1" cacheFailEnv).2 = Except.ok (User.mk "u1" "a@b.c" "Name" 0)
    ∧ Ev.dbQuery "SELECT * FROM users WHERE id = ?" ["u1"] ∈ (findUserById "u1" cacheFailEnv).1 :=
  (findUserById_cache_failure_degrades cacheFailEnv "u1" ⟨"cache down"⟩ rfl).1
    (User.mk "u1" "a@b.c" "Name" 0) [] rfl

/-- Claim C9: `findUserById` can never actually fail with a `CacheError`,
although `CacheError` appears in its declared error type: every cache
failure is recovered (the read to a cache miss, the write by logging), so
for every environment the only possible outcomes are success,
`UserNotFoundError`, or `DatabaseError`. -/
theorem findUserById_cacheError_unreachable :
    ∀ (env : Env) (id : String),
      (∀ ce : CacheError, (findUserById id env).2 ≠ Except.error (UserError.cache ce))
      ∧ ((∃ u, (findUserById id env).2 = Except.ok u)
        ∨ (∃ n, (findUserById id env).2 = Except.error (UserError.userNotFound n))
        ∨ (∃ d, (findUserById id env).2 = Except.error (UserError.database d))) := by
  intro env id
  have main : (∃ u, (findUserById id env).2 = Except.ok u)
      ∨ (∃ n, (findUserById id env).2 = Except.error (UserError.userNotFound n))
      ∨ (∃ d, (findUserById id env).2 = Except.error (UserError.database d)) := by
    cases hget : env.cache.get ("user:" ++ id) with
    | error ce =>
      cases hq : env.database.query "SELECT * FROM users WHERE id = ?" [id] with
      | error de =>
        right; right
        exact ⟨de, by
          simp [findUserById, Effect.flatMap, Effect.catchTag, Effect.succeed,
            Cache.get, Database.query, Logger.debug, Logger.error, UserError.tag,
            hget, hq]⟩
      | ok results =>
        cases results with
        | nil =>
          right; left
          exact ⟨⟨id⟩, by
            simp [findUserById, Effect.flatMap, Effect.catchTag, Effect.succeed,
              Effect.fail, Cache.get, Database.query, Logger.debug, Logger.error,
              UserError.tag, hget, hq]⟩
        | cons u rest =>
          left
          refine ⟨u, ?_⟩
          cases hset : env.cache.set ("user:" ++ id) u 300 with
          | ok _ =>
            simp [findUserById, Effect.flatMap, Effect.catchTag, Effect.succeed,
              Cache.get, Cache.set, Database.query, Logger.debug, Logger.error,
              UserError.tag, hget, hq, hset]
          | error e2 =>
            simp [findUserById, Effect.flatMap, Effect.catchTag, Effect.succeed,
              Cache.get, Cache.set, Database.query, Logger.debug, Logger.error,
              UserError.tag, hget, hq, hset]
    | ok cached =>
      cases cached with
      | some u =>
        left
        exact ⟨u, by
          simp [findUserById, Effect.flatMap, Effect.catchTag, Effect.succeed,
            Cache.get, Logger.debug, UserError.tag, hget]⟩
      | none =>
        cases hq : env.database.query "SELECT * FROM users WHERE id = ?" [id] with
        | error de =>
          right; right
          exact ⟨de, by
            simp [findUserById, Effect.flatMap, Effect.catchTag, Effect.succeed,
              Cache.get, Database.query, Logger.debug, Logger.error, UserError.tag,
              hget, hq]⟩
        | ok results =>
          cases results with
          | nil =>
            right; left
            exact ⟨⟨id⟩, by
              simp [findUserById, Effect.flatMap, Effect.catchTag, Effect.succeed,
                Effect.fail, Cache.get, Database.query, Logger.debug, Logger.error,
                UserError.tag, hget, hq]⟩
          | cons u rest =>
            left
            refine ⟨u, ?_⟩
            cases hset : env.cache.set ("user:" ++ id) u 300 with
            | ok _ =>
              simp [findUserById, Effect.flatMap, Effect.catchTag, Effect.succeed,
                Cache.get, Cache.set, Database.query, Logger.debug, Logger.error,
                UserError.tag, hget, hq, hset]
            | error e2 =>
              simp [findUserById, Effect.flatMap, Effect.catchTag, Effect.succeed,
                Cache.get, Cache.set, Database.query, Logger.debug, Logger.error,
                UserError.tag, hget, hq, hset]
  refine ⟨?_, main⟩
  intro ce hcon
  rcases main with ⟨u, h⟩ | ⟨n, h⟩ | ⟨d, h⟩ <;> rw [h] at hcon <;> simp at hcon

/-- Claim C10: whenever `updateUser` succeeds, the returned user preserves
the stored user's `id` and `createdAt` unchanged; `email` and `name` are
the input fields when provided and the stored fields otherwise, so each
differs from the stored user only when the corresponding input field is
provided. -/
theorem updateUser_preserves_id_createdAt :
    ∀ (env : Env) (id : String) (input : UpdateUserInput) (u' : User),
      (updateUser id input env).2 = Except.ok u' →
        ∃ stored : User,
          (findUserById id env).2 = Except.ok stored
          ∧ u'.id = stored.id
          ∧ u'.createdAt = stored.createdAt
          ∧ u'.email = input.email.getD stored.email
          ∧ u'.name = input.name.getD stored.name
          ∧ (u'.email ≠ stored.email → input.email ≠ none)
          ∧ (u'.name ≠ stored.name → input.name ≠ none) := by
  intro env id input u' h
  rcases hf : findUserById id env with ⟨evs, r⟩
  cases r with
  | error e =>
    exfalso
    simp [updateUser, Effect.flatMap, Logger.info, hf] at h
  | ok user =>
    refine ⟨user, rfl, ?_⟩
    cases hie : input.email with
    | none =>
      cases hex : env.database.execute "UPDATE users SET email = ?, name = ? WHERE id = ?"
          [user.email, Option.getD input.name user.name, id] with
      | error de =>
        exfalso
        simp [updateUser, Effect.flatMap, Effect.catchTag, Effect.succeed, Effect.fail,
          Logger.info, Logger.debug, Logger.error, Database.execute, Database.query,
          Cache.delete, findUserByEmail, UserError.tag, hf, hie, hex] at h
      | ok _ =>
        cases hdel : env.cache.delete ("user:" ++ id)
        all_goals
          simp [updateUser, Effect.flatMap, Effect.catchTag, Effect.succeed, Effect.fail,
            Logger.info, Logger.debug, Logger.error, Database.execute, Database.query,
            Cache.delete, findUserByEmail, UserError.tag, hf, hie, hex, hdel] at h
          subst h
          refine ⟨rfl, rfl, by simp [hie], rfl, ?_, ?_⟩
          · intro hne
            simp at hne
          · intro hne
            cases hn : input.name with
            | none => rw [hn] at hne; simp at hne
            | some _ => simp [hn]
    | some e =>
      by_cases hg : ¬e = "" ∧ ¬e = user.email
      · cases hq2 : env.database.query "SELECT * FROM users WHERE email = ?" [e] with
        | error de =>
          exfalso
          simp [updateUser, Effect.flatMap, Effect.catchTag, Effect.succeed, Effect.fail,
            Logger.info, Logger.debug, Logger.error, Database.execute, Database.query,
            Cache.delete, findUserByEmail, UserError.tag, hf, hie, hg, hq2] at h
        | ok results =>
          cases results with
          | cons u2 rest =>
            exfalso
            simp [updateUser, Effect.flatMap, Effect.catchTag, Effect.succeed, Effect.fail,
              Logger.info, Logger.debug, Logger.error, Database.execute, Database.query,
              Cache.delete, findUserByEmail, UserError.tag, hf, hie, hg, hq2] at h
          | nil =>
            cases hex : env.database.execute "UPDATE users SET email = ?, name = ? WHERE id = ?"
                [e, Option.getD input.name user.name, id] with
            | error de =>
              exfalso
              simp [updateUser, Effect.flatMap, Effect.catchTag, Effect.succeed, Effect.fail,
                Logger.info, Logger.debug, Logger.error, Database.execute, Database.query,
                Cache.delete, findUserByEmail, UserError.tag, hf, hie, hg, hq2, hex] at h
            | ok _ =>
              cases hdel : env.cache.delete ("user:" ++ id)
              all_goals
                simp [updateUser, Effect.flatMap, Effect.catchTag, Effect.succeed, Effect.fail,
                  Logger.info, Logger.debug, Logger.error, Database.execute, Database.query,
                  Cache.delete, findUserByEmail, UserError.tag, hf, hie, hg, hq2, hex, hdel] at h
                subst h
                refine ⟨rfl, rfl, by simp [hie], rfl, ?_, ?_⟩
                · intro hne
                  simp [hie]
                · intro hne
                  cases hn : input.name with
                  | none => rw [hn] at hne; simp at hne
                  | some _ => simp [hn]
      · cases hex : env.database.execute "UPDATE users SET email = ?, name = ? WHERE id = ?"
            [e, Option.getD input.name user.name, id] with
        | error de =>
          exfalso
          simp [updateUser, Effect.flatMap, Effect.catchTag, Effect.succeed, Effect.fail,
            Logger.info, Logger.debug, Logger.error, Database.execute, Database.query,
            Cache.delete, findUserByEmail, UserError.tag, hf, hie, hg, hex] at h
        | ok _ =>
          cases hdel : env.cache.delete ("user:" ++ id)
          all_goals
            simp [updateUser, Effect.flatMap, Effect.catchTag, Effect.succeed, Effect.fail,
              Logger.info, Logger.debug, Logger.error, Database.execute, Database.query,
              Cache.delete, findUserByEmail, UserError.tag, hf, hie, hg, hex, hdel] at h
            subst h
            refine ⟨rfl, rfl, by simp [hie], rfl, ?_, ?_⟩
            · intro hne
              simp [hie]
            · intro hne
              cases hn : input.name with
              | none => rw [hn] at hne; simp at hne
              | some _ => simp [hn]

/-- Environment for exercising `updateUser`: the id lookup finds a stored
user, the email-uniqueness lookup finds no conflict. -/
def updateEnv : Env :=
  { database :=
      { query := fun sql _ =>
          if sql = "SELECT * FROM users WHERE id = ?" then .ok [User.mk "u1" "a@b.c" "Name" 5]
          else .ok []
        execute := fun _ _ => .ok () }
    cache := cacheLiveImpl
    logger := {}
    now := 0
    randomUUID := "" }

/-- Witness for C10: updating only the email of the stored user preserves
`id` and `createdAt` and changes exactly the provided field. -/
theorem updateUser_preserves_witness :
    ∃ stored : User,
      (findUserById "u1" updateEnv).2 = Except.ok stored
      ∧ (User.mk "u1" "new@x.c" "Name" 5).id = stored.id
      ∧ (User.mk "u1" "new@x.c" "Name" 5).createdAt = stored.createdAt
      ∧ (User.mk "u1" "new@x.c" "Name" 5).email =
          (UpdateUserInput.mk (some "new@x.c") none).email.getD stored.email
      ∧ (User.mk "u1" "new@x.c" "Name" 5).name =
          (UpdateUserInput.mk (some "new@x.c") none).name.getD stored.name
      ∧ ((User.mk "u1" "new@x.c" "Name" 5).email ≠ stored.email →
          (UpdateUserInput.mk (some "new@x.c") none).email ≠ none)
      ∧ ((User.mk "u1" "new@x.c" "Name" 5).name ≠ stored.name →
          (UpdateUserInput.mk (some "new@x.c") none).name ≠ none) :=
  updateUser_preserves_id_createdAt updateEnv "u1" (UpdateUserInput.mk (some "new@x.c") none)
    (User.mk "u1" "new@x.c" "Name" 5) rfl

/-- Environment for the batch scenario of C1: processing of `id2` fails
(empty result set, hence `UserNotFoundError`), the other ids succeed. -/
def batchEnv : Env :=
  { database :=
      { query := fun _ params =>
          if params = ["id2"] then .ok []
          else .ok [User.mk (params.headD "") "a@b.c" "Name" 0]
        execute := fun _ _ => .ok () }
    cache := cacheLiveImpl
    logger := {}
    now := 0
    randomUUID := "" }

/-- The batch result the code actually produces in the C1 scenario. -/
def batchExpected : BatchResult :=
  { successful :=
      [BatchSuccess.mk "id1" (UserProfile.mk (User.mk "id1" "a@b.c" "Name" 0) 0 true),
       BatchSuccess.mk "id3" (UserProfile.mk (User.mk "id3" "a@b.c" "Name" 0) 0 true)]
    failed := [BatchFailure.mk "unknown" "UserNotFoundError"] }

/-- Claim C1, evaluated at the failing input: on `[id1, id2, id3]` where
processing of `id2` fails, `processUserBatch` returns the successful
outcomes for `id1` and `id3` and a single failed entry, but that entry
carries the placeholder `"unknown"` instead of `"id2"` — the failing id
appears in neither sequence, contradicting the claim that every input id
appears in exactly one of the two sequences with the failed entry carrying
the id of the failed item. -/
theorem processUserBatch_discards_failing_id :
    (processUserBatch ["id1", "id2", "id3"] batchEnv).2 = Except.ok batchExpected
    ∧ batchExpected.failed.map BatchFailure.userId = ["unknown"]
    ∧ batchExpected.successful.map BatchSuccess.userId = ["id1", "id3"] := by
  refine ⟨rfl, rfl, rfl⟩

/-- Witness for C9 at a concrete environment whose cache always fails: the
lookup still does not fail with a `CacheError`. -/
theorem findUserById_cacheError_unreachable_witness :
    (findUserById "u1" cacheFailEnv).2 ≠ Except.error (UserError.cache ⟨"cache down"⟩) :=
  (findUserById_cacheError_unreachable cacheFailEnv "u1").1 ⟨"cache down"⟩
